import Mathlib

/-!
Shallow embedding of the forecasting dispatch pipeline of
`src/backend/server.py` (stock-prediction service), together with proofs
settling the specification claims about it.

Modelling conventions:
* Calendar dates are day numbers (`Nat`, days since an arbitrary epoch);
  the code's `timedelta(days=k)` is addition of `k`, and the
  `strftime` formatting is an injective monotone rendering that is dropped.
* Python `float` arithmetic is modelled by exact rationals (`ℚ`); the spec
  phrases the numeric claims "within floating-point tolerance", which the
  exact model realises as equality.
* Python negative indexing `xs[-k]` on a list of length `n` is `xs[n-k]`,
  modelled by `List.getD (n - k)`.
-/

namespace StockPred

/-- A raw JSON field of a historical record: absent, present but not of the
expected form (an unparseable date string / a non-numeric close), or a value. -/
inductive RawField (α : Type) where
  | missing : RawField α
  | malformed : RawField α
  | value : α → RawField α
deriving DecidableEq

/-- One element of `request.historical`: a dict with (possibly absent or
malformed) `date` and `close` fields.  Parseable dates are identified with
their day number.  The other OHLCV fields are never read by the pipeline and
are omitted. -/
structure RawRecord where
  date : RawField Nat
  close : RawField ℚ
deriving DecidableEq

/-- A row of the prepared dataframe: `pd.to_datetime` turns an absent date
into `NaT` (here `none`) and a parseable one into a timestamp (here
`some day`); the close column is carried through untouched. -/
structure PreparedRecord where
  date : Option Nat
  close : RawField ℚ
deriving DecidableEq

/-- A forecast point `{date, close}`. -/
structure Point where
  date : Nat
  close : ℚ
deriving DecidableEq

/-- The request body of `POST /predict`. -/
structure Request where
  symbol : String
  model : String
  days : Nat
  historical : List RawRecord
deriving DecidableEq

/-- The success response body of `POST /predict`. -/
structure Response where
  symbol : String
  model : String
  predictions : List Point
deriving DecidableEq

/-- The two ways `prepare_dataframe` can raise: `df['date']` raises
`KeyError` when the column does not exist (empty record list, or no record
carries a `date` key), and `pd.to_datetime` raises on an unparseable date
string.  An absent date inside an existing column does NOT raise (it becomes
`NaT`). -/
inductive PrepError where
  | noDateColumn : PrepError
  | unparseableDate : PrepError
deriving DecidableEq

def toPrepared (r : RawRecord) : PreparedRecord :=
  { date := match r.date with
      | RawField.value d => some d
      | _ => none
    close := r.close }

/-- `df.sort_values('date')` comparison: rows ordered by date, `NaT` sorted
last (pandas `na_position` default). -/
def dateLe (r s : PreparedRecord) : Bool :=
  match r.date, s.date with
  | some a, some b => a ≤ b
  | some _, none => true
  | none, some _ => false
  | none, none => true

def insertByDate (r : PreparedRecord) : List PreparedRecord → List PreparedRecord
  | [] => [r]
  | s :: ss => if dateLe r s then r :: s :: ss else s :: insertByDate r ss

/-- Sorting of the dataframe rows by the parsed date column (the exact
permutation on ties is irrelevant to every claim; pandas uses an unstable
quicksort by default). -/
def sortByDate : List PreparedRecord → List PreparedRecord
  | [] => []
  | r :: rs => insertByDate r (sortByDate rs)

def hasMalformedDate (r : RawRecord) : Bool :=
  match r.date with
  | RawField.malformed => true
  | _ => false

def hasMissingDate (r : RawRecord) : Bool :=
  match r.date with
  | RawField.missing => true
  | _ => false

/-- `prepare_dataframe`: builds the dataframe, parses the date column and
sorts by it.  It raises (`KeyError`) when no `date` column exists — in
particular on the empty list — and (`ValueError` from `pd.to_datetime`) when
some present date string is unparseable.  It never looks at the `close`
column. -/
def prepare_dataframe (rs : List RawRecord) : Except PrepError (List PreparedRecord) :=
  if rs.all hasMissingDate then
    Except.error PrepError.noDateColumn
  else if rs.any hasMalformedDate then
    Except.error PrepError.unparseableDate
  else
    Except.ok (sortByDate (rs.map toPrepared))

/-- The numeric value of a close cell.  Non-numeric cells are given the junk
value `0`; every theorem below that depends on close values carries a
hypothesis (`closesNumericB`) ruling such cells out, since on them the real
code raises strategy-dependent exceptions that are not modelled. -/
def numClose (f : RawField ℚ) : ℚ :=
  match f with
  | RawField.value q => q
  | _ => 0

/-- `df['close'].values` as a list of rationals. -/
def closesOf (df : List PreparedRecord) : List ℚ :=
  df.map (fun r => numClose r.close)

def closesNumericB (df : List PreparedRecord) : Bool :=
  df.all (fun r => match r.close with
    | RawField.value _ => true
    | _ => false)

/-- `df['date'].max()`: the largest parsed date, ignoring `NaT` entries
(junk `0` on a dateless frame, which no theorem reaches). -/
def lastDate (df : List PreparedRecord) : Nat :=
  (df.filterMap (fun r => r.date)).foldl max 0

/-! ### Linear Regression strategy (`predict_linear_regression`)

`sklearn.linear_model.LinearRegression` on `X = [[0],[1],...,[m-1]]`,
`y = closes of df.tail(60)`, is ordinary least squares with intercept; its
exact closed form is
`slope = (m·Σᵢ i·yᵢ − (Σᵢ i)(Σᵢ yᵢ)) / (m·Σᵢ i² − (Σᵢ i)²)` and
`intercept = (Σᵢ yᵢ − slope·Σᵢ i) / m`. -/

/-- `Σ_{i<m} i` over ℚ. -/
def idxSum (m : Nat) : ℚ :=
  ((List.range m).map (fun (i : Nat) => (i : ℚ))).sum

/-- `Σ_{i<m} i²` over ℚ. -/
def idxSqSum (m : Nat) : ℚ :=
  ((List.range m).map (fun (i : Nat) => (i : ℚ) ^ 2)).sum

/-- `Σᵢ (k+i)·ysᵢ`: the index/value dot product, index starting at `k`. -/
def dotIdx : Nat → List ℚ → ℚ
  | _, [] => 0
  | k, y :: ys => (k : ℚ) * y + dotIdx (k + 1) ys

def olsDenom (m : Nat) : ℚ := (m : ℚ) * idxSqSum m - (idxSum m) ^ 2

def olsSlope (ys : List ℚ) : ℚ :=
  ((ys.length : ℚ) * dotIdx 0 ys - idxSum ys.length * ys.sum) / olsDenom ys.length

def olsIntercept (ys : List ℚ) : ℚ :=
  (ys.sum - olsSlope ys * idxSum ys.length) / (ys.length : ℚ)

/-- The closes of `df.tail(60)`: the trailing training window. -/
def windowCloses (df : List PreparedRecord) : List ℚ :=
  closesOf (df.drop (df.length - 60))

/-- `predict_linear_regression(df, days)`: fit OLS of close against the
zero-based day index over `df.tail(60)`, then predict at indices
`last_day + i` for `i = 1..days` where `last_day = len(df_train)` — note the
code predicts one index past the natural continuation.  Dates are
`df['date'].max() + 1..days`. -/
def predict_linear_regression (df : List PreparedRecord) (days : Nat) : List Point :=
  (List.range days).map (fun i =>
    { date := lastDate df + i + 1
      close := olsIntercept (windowCloses df) +
        olsSlope (windowCloses df) * (((windowCloses df).length : ℚ) + (i : ℚ) + 1) })

/-! ### Exponential smoothing strategy (`predict_lstm`) -/

/-- α = 0.3. -/
def alpha : ℚ := 3 / 10

/-- The `for` loop of `predict_lstm`: given the previous smoothed value `s`,
append `alpha * p + (1 - alpha) * s` for each remaining price `p`. -/
def smoothFrom (s : ℚ) : List ℚ → List ℚ
  | [] => []
  | p :: ps => (alpha * p + (1 - alpha) * s) :: smoothFrom (alpha * p + (1 - alpha) * s) ps

/-- The full `smoothed` list: `smoothed[0] = prices[0]`, then the loop. -/
def smoothedList : List ℚ → List ℚ
  | [] => []
  | p :: ps => p :: smoothFrom p ps

/-- `trend = (smoothed[-1] - smoothed[-20]) / 20` of `predict_lstm`
(negative indices: positions `n-1` and `n-20`). -/
def lstmTrend (df : List PreparedRecord) : ℚ :=
  let s := smoothedList (closesOf df)
  (s.getD (s.length - 1) 0 - s.getD (s.length - 20) 0) / 20

/-- `last_value = smoothed[-1]` of `predict_lstm`. -/
def lstmLast (df : List PreparedRecord) : ℚ :=
  let s := smoothedList (closesOf df)
  s.getD (s.length - 1) 0

/-- `predict_lstm(df, days)`: exponential smoothing with α = 0.3, then
`last_value + trend * (i+1)` for `i = 0..days-1`, dated
`df['date'].max() + i + 1`. -/
def predict_lstm (df : List PreparedRecord) (days : Nat) : List Point :=
  (List.range days).map (fun i =>
    { date := lastDate df + i + 1
      close := lstmLast df + lstmTrend df * ((i : ℚ) + 1) })

/-! ### Moving-average strategy (`predict_arima`) -/

/-- `pd.Series(prices).rolling(window=20).mean().iloc[-1]`: the last rolling
mean, i.e. the mean of the last 20 prices (the code's ≥30-length
precondition makes the window fully populated). -/
def arimaLastMA (df : List PreparedRecord) : ℚ :=
  let ps := closesOf df
  ((ps.drop (ps.length - 20)).sum) / 20

/-- `trend = (prices[-1] - prices[-window]) / window` with `window = 20`
(negative indices: positions `n-1` and `n-20`). -/
def arimaTrend (df : List PreparedRecord) : ℚ :=
  let ps := closesOf df
  (ps.getD (ps.length - 1) 0 - ps.getD (ps.length - 20) 0) / 20

/-- `predict_arima(df, days)`: `last_ma + trend * (i+1)` for
`i = 0..days-1`, dated `df['date'].max() + i + 1`. -/
def predict_arima (df : List PreparedRecord) (days : Nat) : List Point :=
  (List.range days).map (fun i =>
    { date := lastDate df + i + 1
      close := arimaLastMA df + arimaTrend df * ((i : ℚ) + 1) })

/-! ### Advanced strategies (`predict_neural_prophet`, `predict_prophet`) -/

/-- Modelled from the spec: the NeuralProphet / Prophet library fitting is an
external dependency absent from `src/`.  Per §4.6 of the spec the library
forecast, filtered to dates strictly after the last historical date and
truncated to `horizon` entries, yields exactly `days` points on consecutive
calendar days after `df['date'].max()`; the fitted values themselves are not
specified and are abstracted as an arbitrary `val : Nat → ℚ`. -/
def advancedForecast (val : Nat → ℚ) (df : List PreparedRecord) (days : Nat) : List Point :=
  (List.range days).map (fun i =>
    { date := lastDate df + i + 1
      close := val i })

/-- `predict_neural_prophet(df, days)`: if the library failed to import
(`NeuralProphet is None`), fall back to linear regression; otherwise run the
fit inside `try/except`, falling back to linear regression on any runtime
error.  `avail` models the import check; `outcome = none` models a raised
fit/predict error, `outcome = some val` a successful library forecast. -/
def predict_neural_prophet (avail : Bool) (outcome : Option (Nat → ℚ))
    (df : List PreparedRecord) (days : Nat) : List Point :=
  if avail then
    match outcome with
    | some val => advancedForecast val df days
    | none => predict_linear_regression df days
  else
    predict_linear_regression df days

/-- `predict_prophet(df, days)`: same structure as `predict_neural_prophet`. -/
def predict_prophet (avail : Bool) (outcome : Option (Nat → ℚ))
    (df : List PreparedRecord) (days : Nat) : List Point :=
  if avail then
    match outcome with
    | some val => advancedForecast val df days
    | none => predict_linear_regression df days
  else
    predict_linear_regression df days

/-! ### Dispatcher (`predict_stock`)

The whole endpoint body sits in a `try` block whose handler is
`except Exception as e: raise HTTPException(status_code=500, detail=str(e))`.
`fastapi.HTTPException` is an `Exception` subclass, so the endpoint's own
`HTTPException(status_code=400, ...)` raises for insufficient data and for an
invalid model are caught there and re-raised with status 500; starlette
renders `str(e)` of an `HTTPException` as `"{status_code}: {detail}"`.
Consequently every error leaves this endpoint with HTTP status 500. -/

/-- `str(e)` of the caught `HTTPException(400, "Insufficient historical data")`. -/
def insufficientDetail : String := "400: Insufficient historical data"

/-- `str(e)` of the caught `HTTPException(400, "Invalid model")`. -/
def invalidModelDetail : String := "400: Invalid model"

/-- `str(e)` of the exception raised inside `prepare_dataframe`.  (Python
renders `str(KeyError("date"))` with quote characters around the key; the
quotes are dropped in this model.) -/
def prepErrorDetail : PrepError → String
  | PrepError.noDateColumn => "KeyError: date"
  | PrepError.unparseableDate => "Unknown datetime string format"

/-- The five recognized model names, in dispatch order. -/
def recognizedModels : List String :=
  ["neural_prophet", "prophet", "lstm", "arima", "linear_regression"]

/-- `POST /predict` (`predict_stock`): prepare the dataframe, require at
least 30 rows, dispatch on the model name, and wrap the result.  Errors are
`(status, detail)` pairs as produced by the endpoint's blanket
`except Exception` handler (status 500 throughout, see above). -/
def predict_stock (npAvail prAvail : Bool)
    (npOutcome prOutcome : Option (Nat → ℚ)) (req : Request) :
    Except (Nat × String) Response :=
  match prepare_dataframe req.historical with
  | Except.error e => Except.error (500, prepErrorDetail e)
  | Except.ok df =>
    if df.length < 30 then
      Except.error (500, insufficientDetail)
    else if req.model = "neural_prophet" then
      Except.ok { symbol := req.symbol, model := req.model
                  predictions := predict_neural_prophet npAvail npOutcome df req.days }
    else if req.model = "prophet" then
      Except.ok { symbol := req.symbol, model := req.model
                  predictions := predict_prophet prAvail prOutcome df req.days }
    else if req.model = "lstm" then
      Except.ok { symbol := req.symbol, model := req.model
                  predictions := predict_lstm df req.days }
    else if req.model = "arima" then
      Except.ok { symbol := req.symbol, model := req.model
                  predictions := predict_arima df req.days }
    else if req.model = "linear_regression" then
      Except.ok { symbol := req.symbol, model := req.model
                  predictions := predict_linear_regression df req.days }
    else
      Except.error (500, invalidModelDetail)

/-- Whether a pipeline result is a success response. -/
def isOkB (r : Except (Nat × String) Response) : Bool :=
  match r with
  | Except.ok _ => true
  | Except.error _ => false

/-- The predictions of a pipeline result (empty on error). -/
def predsOf (r : Except (Nat × String) Response) : List Point :=
  match r with
  | Except.ok resp => resp.predictions
  | Except.error _ => []

/-! ## General list lemmas -/

theorem getD_map_range {α : Type} (f : Nat → α) {m i : Nat} (d : α) (h : i < m) :
    ((List.range m).map f).getD i d = f i := by
  have hlen : i < ((List.range m).map f).length := by simpa using h
  rw [List.getD_eq_getElem _ _ hlen, List.getElem_map, List.getElem_range]

theorem getD_replicate {i n : Nat} (c d : ℚ) (h : i < n) :
    (List.replicate n c).getD i d = c := by
  have hlen : i < (List.replicate n c).length := by simpa using h
  rw [List.getD_eq_getElem _ _ hlen, List.getElem_replicate]

/-! ## Shape of every strategy's output: `days` points on consecutive dates -/

/-- `ps` consists of exactly `days` points dated `base + 1, ..., base + days`. -/
def shapeOK (ps : List Point) (base days : Nat) : Prop :=
  ps.length = days ∧ ∀ k, k < days → (ps.getD k { date := 0, close := 0 }).date = base + k + 1

theorem shape_map (g : Nat → ℚ) (base days : Nat) :
    shapeOK ((List.range days).map (fun i => { date := base + i + 1, close := g i })) base days :=
  ⟨by simp, fun k hk => by rw [getD_map_range _ _ hk]⟩

theorem shape_linreg (df : List PreparedRecord) (days : Nat) :
    shapeOK (predict_linear_regression df days) (lastDate df) days :=
  shape_map _ _ _

theorem shape_lstm (df : List PreparedRecord) (days : Nat) :
    shapeOK (predict_lstm df days) (lastDate df) days :=
  shape_map _ _ _

theorem shape_arima (df : List PreparedRecord) (days : Nat) :
    shapeOK (predict_arima df days) (lastDate df) days :=
  shape_map _ _ _

theorem shape_advanced (val : Nat → ℚ) (df : List PreparedRecord) (days : Nat) :
    shapeOK (advancedForecast val df days) (lastDate df) days :=
  shape_map _ _ _

theorem shape_np (avail : Bool) (outcome : Option (Nat → ℚ))
    (df : List PreparedRecord) (days : Nat) :
    shapeOK (predict_neural_prophet avail outcome df days) (lastDate df) days := by
  cases avail <;> cases outcome <;>
    simp only [predict_neural_prophet] <;>
    first
      | exact shape_linreg df days
      | exact shape_advanced _ df days

theorem shape_prophet (avail : Bool) (outcome : Option (Nat → ℚ))
    (df : List PreparedRecord) (days : Nat) :
    shapeOK (predict_prophet avail outcome df days) (lastDate df) days := by
  cases avail <;> cases outcome <;>
    simp only [predict_prophet] <;>
    first
      | exact shape_linreg df days
      | exact shape_advanced _ df days

/-- C1: for every valid request (prepared series of length ≥ 30, one of the
five recognized model names, numeric closes), the endpoint succeeds and its
response contains exactly `days` prediction points whose dates are the
strictly increasing consecutive calendar days
`last historical date + 1, ..., last historical date + days`; in particular
no partial result is ever returned.  (The fitted values of the optional
NeuralProphet/Prophet libraries, absent from the repository, are abstracted
as `npOutcome`/`prOutcome` following §4.6 of the spec; the claim holds for
every abstraction.) -/
theorem C1_valid_request_shape (npAvail prAvail : Bool)
    (npOutcome prOutcome : Option (Nat → ℚ)) (req : Request)
    (df : List PreparedRecord) (k : Nat)
    (hprep : prepare_dataframe req.historical = Except.ok df)
    (hlen : 30 ≤ df.length)
    (hwf : closesNumericB df = true)
    (hmodel : req.model ∈ recognizedModels) :
    isOkB (predict_stock npAvail prAvail npOutcome prOutcome req) = true ∧
    (predsOf (predict_stock npAvail prAvail npOutcome prOutcome req)).length = req.days ∧
    (k < req.days →
      ((predsOf (predict_stock npAvail prAvail npOutcome prOutcome req)).getD k
        { date := 0, close := 0 }).date = lastDate df + k + 1) := by
  have h30 : ¬ df.length < 30 := by omega
  have hm : req.model = "neural_prophet" ∨ req.model = "prophet" ∨ req.model = "lstm" ∨
      req.model = "arima" ∨ req.model = "linear_regression" := by
    simpa [recognizedModels] using hmodel
  rcases hm with h | h | h | h | h
  · have e : predict_stock npAvail prAvail npOutcome prOutcome req =
        Except.ok { symbol := req.symbol, model := req.model
                    predictions := predict_neural_prophet npAvail npOutcome df req.days } := by
      simp [predict_stock, hprep, h30, h]
    rw [e]
    exact ⟨rfl, (shape_np npAvail npOutcome df req.days).1,
      fun hk => (shape_np npAvail npOutcome df req.days).2 k hk⟩
  · have e : predict_stock npAvail prAvail npOutcome prOutcome req =
        Except.ok { symbol := req.symbol, model := req.model
                    predictions := predict_prophet prAvail prOutcome df req.days } := by
      simp [predict_stock, hprep, h30, h]
    rw [e]
    exact ⟨rfl, (shape_prophet prAvail prOutcome df req.days).1,
      fun hk => (shape_prophet prAvail prOutcome df req.days).2 k hk⟩
  · have e : predict_stock npAvail prAvail npOutcome prOutcome req =
        Except.ok { symbol := req.symbol, model := req.model
                    predictions := predict_lstm df req.days } := by
      simp [predict_stock, hprep, h30, h]
    rw [e]
    exact ⟨rfl, (shape_lstm df req.days).1, fun hk => (shape_lstm df req.days).2 k hk⟩
  · have e : predict_stock npAvail prAvail npOutcome prOutcome req =
        Except.ok { symbol := req.symbol, model := req.model
                    predictions := predict_arima df req.days } := by
      simp [predict_stock, hprep, h30, h]
    rw [e]
    exact ⟨rfl, (shape_arima df req.days).1, fun hk => (shape_arima df req.days).2 k hk⟩
  · have e : predict_stock npAvail prAvail npOutcome prOutcome req =
        Except.ok { symbol := req.symbol, model := req.model
                    predictions := predict_linear_regression df req.days } := by
      simp [predict_stock, hprep, h30, h]
    rw [e]
    exact ⟨rfl, (shape_linreg df req.days).1, fun hk => (shape_linreg df req.days).2 k hk⟩

/-! ## Concrete fixtures for witnesses and counterexamples -/

/-- 30 well-formed raw records, dates `0..29`, closes `0..29`. -/
def wRaw30 : List RawRecord :=
  (List.range 30).map (fun i => { date := RawField.value i, close := RawField.value (i : ℚ) })

/-- The prepared series of `wRaw30`. -/
def wDf30 : List PreparedRecord :=
  (List.range 30).map (fun i => { date := some i, close := RawField.value (i : ℚ) })

/-- 10 well-formed raw records (fewer than 30). -/
def wRaw10 : List RawRecord :=
  (List.range 10).map (fun i => { date := RawField.value i, close := RawField.value (i : ℚ) })

/-- 5 well-formed raw records (fewer than 30). -/
def wRaw5 : List RawRecord :=
  (List.range 5).map (fun i => { date := RawField.value i, close := RawField.value (i : ℚ) })

/-- A valid request: recognized model, 30 records. -/
def wReq1 : Request := { symbol := "AAPL", model := "lstm", days := 2, historical := wRaw30 }

theorem C1_valid_request_shape_witness :
    prepare_dataframe wReq1.historical = Except.ok wDf30 ∧
    30 ≤ wDf30.length ∧ closesNumericB wDf30 = true ∧ wReq1.model ∈ recognizedModels ∧
    (isOkB (predict_stock false false none none wReq1) = true ∧
      (predsOf (predict_stock false false none none wReq1)).length = wReq1.days ∧
      (0 < wReq1.days →
        ((predsOf (predict_stock false false none none wReq1)).getD 0
          { date := 0, close := 0 }).date = lastDate wDf30 + 0 + 1)) :=
  ⟨by rfl, by decide, by decide, by decide,
    C1_valid_request_shape false false none none wReq1 wDf30 0 (by rfl) (by decide)
      (by decide) (by decide)⟩

/-- C2 (code bug): a request whose prepared series has fewer than 30 records
does fail with the insufficient-data error regardless of the model name, but
it reaches the caller with HTTP status 500, not as a client error: the
endpoint's `HTTPException(status_code=400, detail="Insufficient historical
data")` is caught by its own blanket `except Exception` handler and
re-raised as `HTTPException(500, str(e))`. -/
theorem C2_insufficient_data_surfaced_as_500 (npAvail prAvail : Bool)
    (npOutcome prOutcome : Option (Nat → ℚ)) (sym model : String) (days : Nat) :
    predict_stock npAvail prAvail npOutcome prOutcome
        { symbol := sym, model := model, days := days, historical := wRaw10 } =
      Except.error (500, insufficientDetail) ∧
    insufficientDetail = "400: Insufficient historical data" := by
  exact ⟨rfl, rfl⟩

/-- C3 counterexample: for a request with an unrecognized model name AND an
insufficient (5-record) series, the code returns the insufficient-data
error, not `UnknownModelError`, and with server status 500, not as a client
error — refuting "UnknownModelError … regardless of whether the historical
data is sufficient". -/
theorem C3_counterexample :
    predict_stock false false none none
        { symbol := "AAPL", model := "foobar", days := 3, historical := wRaw5 } =
      Except.error (500, insufficientDetail) ∧
    insufficientDetail ≠ invalidModelDetail := by
  exact ⟨rfl, by decide⟩

/-- C3 (amended): for every request whose prepared series has at least 30
records and whose model is not one of the five recognized names, dispatch
fails with the invalid-model error; the blanket `except Exception` handler
surfaces it with HTTP status 500 (detail `"400: Invalid model"`) rather than
as a client error.  When the series has fewer than 30 records the
insufficient-data check fires first instead. -/
theorem C3_unknown_model_error (npAvail prAvail : Bool)
    (npOutcome prOutcome : Option (Nat → ℚ)) (req : Request)
    (df : List PreparedRecord)
    (hprep : prepare_dataframe req.historical = Except.ok df)
    (hlen : 30 ≤ df.length)
    (hmodel : req.model ∉ recognizedModels) :
    predict_stock npAvail prAvail npOutcome prOutcome req =
      Except.error (500, invalidModelDetail) := by
  have h30 : ¬ df.length < 30 := by omega
  simp only [recognizedModels, List.mem_cons, List.mem_singleton, not_or,
    List.not_mem_nil, or_false] at hmodel
  obtain ⟨h1, h2, h3, h4, h5⟩ := hmodel
  simp [predict_stock, hprep, h30, h1, h2, h3, h4, h5]

/-- An unknown-model request with a sufficient (30-record) series. -/
def wReqBad : Request := { symbol := "AAPL", model := "foobar", days := 3, historical := wRaw30 }

theorem C3_unknown_model_error_witness :
    prepare_dataframe wReqBad.historical = Except.ok wDf30 ∧
    30 ≤ wDf30.length ∧ wReqBad.model ∉ recognizedModels ∧
    predict_stock false false none none wReqBad = Except.error (500, invalidModelDetail) :=
  ⟨by rfl, by decide, by decide,
    C3_unknown_model_error false false none none wReqBad wDf30 (by rfl) (by decide) (by decide)⟩

theorem hasMissingDate_eq (r : RawRecord) :
    hasMissingDate r = true ↔ r.date = RawField.missing := by
  unfold hasMissingDate
  cases r.date <;> simp

theorem hasMalformedDate_eq (r : RawRecord) :
    hasMalformedDate r = true ↔ r.date = RawField.malformed := by
  unfold hasMalformedDate
  cases r.date <;> simp

/-- C9 (amended): `prepare_dataframe` fails if and only if the date COLUMN
is unusable: either no record carries a date field at all (including the
empty list, where `df['date']` raises `KeyError`), or some record's date
field is present but unparseable (`pd.to_datetime` raises).  A record whose
close field is absent or non-numeric does NOT make prepare fail — the
function never reads the close column. -/
theorem C9_prepare_failure_iff (rs : List RawRecord) :
    (∃ e, prepare_dataframe rs = Except.error e) ↔
      ((∀ r ∈ rs, r.date = RawField.missing) ∨
        (∃ r ∈ rs, r.date = RawField.malformed)) := by
  have hall : rs.all hasMissingDate = true ↔ ∀ r ∈ rs, r.date = RawField.missing := by
    simp [List.all_eq_true, hasMissingDate_eq]
  have hany : rs.any hasMalformedDate = true ↔ ∃ r ∈ rs, r.date = RawField.malformed := by
    simp [List.any_eq_true, hasMalformedDate_eq]
  unfold prepare_dataframe
  split_ifs with h1 h2
  · simpa using Or.inl (hall.mp h1)
  · simpa using Or.inr (hany.mp h2)
  · constructor
    · rintro ⟨e, he⟩
      cases he
    · rintro (h | h)
      · exact absurd (hall.mpr h) h1
      · exact absurd (hany.mpr h) h2

/-- C9 counterexample: a record with a parseable date but an ABSENT close
field is accepted by the preparer (the claim asserts it must fail with
`MalformedInputError`). -/
theorem C9_counterexample :
    prepare_dataframe [{ date := RawField.value 0, close := RawField.missing }] =
      Except.ok [{ date := some 0, close := RawField.missing }] := by
  rfl

/-- C10: for the empty historical list the pipeline fails inside
`prepare_dataframe` — `pd.DataFrame([])` has no `date` column, so
`df['date']` raises `KeyError` before the length check is reached — and the
caller receives the generic 500 server error carrying that exception's
message, not the insufficient-data error, even though 0 < 30. -/
theorem C10_empty_history_prepare_error (npAvail prAvail : Bool)
    (npOutcome prOutcome : Option (Nat → ℚ)) (sym model : String) (days : Nat) :
    predict_stock npAvail prAvail npOutcome prOutcome
        { symbol := sym, model := model, days := days, historical := [] } =
      Except.error (500, prepErrorDetail PrepError.noDateColumn) ∧
    prepErrorDetail PrepError.noDateColumn ≠ insufficientDetail := by
  exact ⟨rfl, by decide⟩

/-! ## Exact OLS recovery on affine data (claim C4) -/

theorem idxSum_succ (m : Nat) : idxSum (m + 1) = idxSum m + (m : ℚ) := by
  unfold idxSum
  rw [List.range_succ, List.map_append, List.sum_append]
  simp

theorem idxSqSum_succ (m : Nat) : idxSqSum (m + 1) = idxSqSum m + (m : ℚ) ^ 2 := by
  unfold idxSqSum
  rw [List.range_succ, List.map_append, List.sum_append]
  simp

theorem two_mul_idxSum (m : Nat) : 2 * idxSum m = (m : ℚ) ^ 2 - m := by
  induction m with
  | zero => simp [idxSum]
  | succ n ih =>
    rw [idxSum_succ]
    push_cast
    push_cast at ih
    ring_nf
    ring_nf at ih
    linarith

theorem six_mul_idxSqSum (m : Nat) :
    6 * idxSqSum m = 2 * (m : ℚ) ^ 3 - 3 * (m : ℚ) ^ 2 + m := by
  induction m with
  | zero => simp [idxSqSum]
  | succ n ih =>
    rw [idxSqSum_succ]
    push_cast
    push_cast at ih
    ring_nf
    ring_nf at ih
    linarith

theorem twelve_mul_olsDenom (m : Nat) :
    12 * olsDenom m = (m : ℚ) ^ 2 * ((m : ℚ) ^ 2 - 1) := by
  unfold olsDenom
  linear_combination (2 * (m : ℚ)) * six_mul_idxSqSum m +
    (-3) * (2 * idxSum m + (m : ℚ) ^ 2 - m) * two_mul_idxSum m

theorem olsDenom_pos {m : Nat} (hm : 2 ≤ m) : 0 < olsDenom m := by
  have hm' : (2 : ℚ) ≤ (m : ℚ) := by exact_mod_cast hm
  have h := twelve_mul_olsDenom m
  nlinarith [sq_nonneg ((m : ℚ) - 2)]

theorem dotIdx_append (l : List ℚ) (k : Nat) (y : ℚ) :
    dotIdx k (l ++ [y]) = dotIdx k l + ((k : ℚ) + l.length) * y := by
  induction l generalizing k with
  | nil => simp [dotIdx]
  | cons z l ih =>
    rw [List.cons_append]
    show (k : ℚ) * z + dotIdx (k + 1) (l ++ [y]) =
      ((k : ℚ) * z + dotIdx (k + 1) l) + ((k : ℚ) + ((z :: l).length : ℚ)) * y
    rw [ih (k + 1)]
    push_cast [List.length_cons]
    ring

theorem linSum (a b : ℚ) (m : Nat) :
    ((List.range m).map (fun (i : Nat) => a + b * (i : ℚ))).sum = a * m + b * idxSum m := by
  induction m with
  | zero => simp [idxSum]
  | succ n ih =>
    rw [List.range_succ, List.map_append, List.sum_append, idxSum_succ, ih]
    push_cast
    simp
    ring

theorem linDot (a b : ℚ) (m : Nat) :
    dotIdx 0 ((List.range m).map (fun (i : Nat) => a + b * (i : ℚ))) =
      a * idxSum m + b * idxSqSum m := by
  induction m with
  | zero => simp [dotIdx, idxSum, idxSqSum]
  | succ n ih =>
    rw [List.range_succ, List.map_append, List.map_singleton, dotIdx_append,
      idxSum_succ, idxSqSum_succ, ih]
    simp
    ring

/-- On exactly affine data `yᵢ = a + b·i`, OLS recovers the slope `b`
exactly (in exact arithmetic). -/
theorem olsSlope_linear (a b : ℚ) {m : Nat} (hm : 2 ≤ m) :
    olsSlope ((List.range m).map (fun (i : Nat) => a + b * (i : ℚ))) = b := by
  have hD : olsDenom m ≠ 0 := ne_of_gt (olsDenom_pos hm)
  unfold olsSlope
  rw [List.length_map, List.length_range, linSum, linDot, div_eq_iff hD]
  unfold olsDenom
  ring

/-- On exactly affine data `yᵢ = a + b·i`, OLS recovers the intercept `a`
exactly. -/
theorem olsIntercept_linear (a b : ℚ) {m : Nat} (hm : 2 ≤ m) :
    olsIntercept ((List.range m).map (fun (i : Nat) => a + b * (i : ℚ))) = a := by
  have hm0 : (m : ℚ) ≠ 0 := by
    have : 0 < m := by omega
    exact_mod_cast Nat.pos_iff_ne_zero.mp this
  unfold olsIntercept
  rw [List.length_map, List.length_range, linSum, olsSlope_linear a b hm,
    div_eq_iff hm0]
  ring

/-- C4 (amended): for model `"linear_regression"`, if the trailing training
window (the last 60 closes, or the whole series when shorter) lies exactly
on the line `close = a + b·index` (zero-based window index, window length
`m ≥ 2`), the k-th predicted close (0-indexed `k`, dated
`last input date + k + 1`) equals
`(a + b·(m−1)) + (k+2)·b` — the last input close plus `(k+2)·b`, one extra
step of `b` beyond the claim's affine continuation, because the code
extrapolates at window indices `m+1 .. m+horizon`, skipping index `m`. -/
theorem C4_linear_regression_extrapolation (df : List PreparedRecord)
    (days : Nat) (a b : ℚ) (m k : Nat)
    (hwin : windowCloses df = (List.range m).map (fun (i : Nat) => a + b * (i : ℚ)))
    (hm : 2 ≤ m) (hk : k < days) :
    (predict_linear_regression df days).getD k { date := 0, close := 0 } =
      { date := lastDate df + k + 1
        close := (a + b * ((m : ℚ) - 1)) + ((k : ℚ) + 2) * b } := by
  unfold predict_linear_regression
  rw [getD_map_range _ _ hk, hwin, olsSlope_linear a b hm, olsIntercept_linear a b hm,
    List.length_map, List.length_range]
  congr 1
  ring

/-- A 60-record series whose closes lie exactly on the line `close = index`. -/
def wDf60lin : List PreparedRecord :=
  (List.range 60).map (fun i => { date := some i, close := RawField.value (i : ℚ) })

theorem wDf60lin_window :
    windowCloses wDf60lin = (List.range 60).map (fun (i : Nat) => (0 : ℚ) + 1 * (i : ℚ)) := by
  have h : ∀ i : Nat, (0 : ℚ) + 1 * (i : ℚ) = (i : ℚ) := by
    intro i
    ring
  simp [windowCloses, wDf60lin, closesOf, numClose, List.map_map, h, Function.comp]

set_option maxRecDepth 4000 in
theorem wDf60lin_lastDate : lastDate wDf60lin = 59 := by
  decide

/-- C4 counterexample: on the 60-day series with closes `0,1,...,59`
(`a = 0`, `b = 1`), the first predicted close is `61`, not the claimed
`last input close + 1·b = 60`: the code's forecast is NOT the exact affine
continuation of the input. -/
theorem C4_counterexample :
    (predict_linear_regression wDf60lin 1).getD 0 { date := 0, close := 0 } =
      { date := 60, close := 61 } ∧
    (61 : ℚ) ≠ 59 + 1 * 1 := by
  constructor
  · unfold predict_linear_regression
    rw [getD_map_range _ _ (by decide : 0 < 1), wDf60lin_window,
      olsSlope_linear 0 1 (by decide), olsIntercept_linear 0 1 (by decide),
      List.length_map, List.length_range, wDf60lin_lastDate]
    simp only [Point.mk.injEq]
    norm_num
  · norm_num

theorem C4_linear_regression_extrapolation_witness :
    windowCloses wDf60lin = (List.range 60).map (fun (i : Nat) => (0 : ℚ) + 1 * (i : ℚ)) ∧
    2 ≤ 60 ∧ (0 : Nat) < 1 ∧
    (predict_linear_regression wDf60lin 1).getD 0 { date := 0, close := 0 } =
      { date := lastDate wDf60lin + 0 + 1
        close := ((0 : ℚ) + 1 * ((60 : ℚ) - 1)) + (((0 : Nat) : ℚ) + 2) * 1 } :=
  ⟨wDf60lin_window, by decide, by decide,
    C4_linear_regression_extrapolation wDf60lin 1 0 1 60 0 wDf60lin_window
      (by decide) (by decide)⟩

/-! ## The exponential-smoothing recurrence (claim C5) -/

theorem smoothFrom_length (s : ℚ) (ps : List ℚ) :
    (smoothFrom s ps).length = ps.length := by
  induction ps generalizing s with
  | nil => rfl
  | cons p ps ih => simp [smoothFrom, ih]

theorem smoothedList_length (ps : List ℚ) : (smoothedList ps).length = ps.length := by
  cases ps with
  | nil => rfl
  | cons p ps => simp [smoothedList, smoothFrom_length]

theorem smoothFrom_getD_succ (qs : List ℚ) (s : ℚ) (i : Nat) (h : i + 1 < qs.length) :
    (smoothFrom s qs).getD (i + 1) 0 =
      alpha * qs.getD (i + 1) 0 + (1 - alpha) * (smoothFrom s qs).getD i 0 := by
  induction qs generalizing s i with
  | nil => simp at h
  | cons q qs ih =>
    cases i with
    | zero =>
      cases qs with
      | nil => simp at h
      | cons q2 qs2 => rfl
    | succ j =>
      have hj : j + 1 < qs.length := by
        simp only [List.length_cons] at h
        omega
      simp only [smoothFrom, List.getD_cons_succ]
      exact ih (alpha * q + (1 - alpha) * s) j hj

theorem smoothedList_getD_zero (ps : List ℚ) (h : 0 < ps.length) :
    (smoothedList ps).getD 0 0 = ps.getD 0 0 := by
  cases ps with
  | nil => simp at h
  | cons p ps => rfl

theorem smoothedList_getD_succ (ps : List ℚ) (i : Nat) (h : i + 1 < ps.length) :
    (smoothedList ps).getD (i + 1) 0 =
      alpha * ps.getD (i + 1) 0 + (1 - alpha) * (smoothedList ps).getD i 0 := by
  cases ps with
  | nil => simp at h
  | cons p ps =>
    cases i with
    | zero =>
      cases ps with
      | nil => simp at h
      | cons q qs => rfl
    | succ j =>
      have hj : j + 1 < ps.length := by
        simp only [List.length_cons] at h
        omega
      simp only [smoothedList, List.getD_cons_succ]
      exact smoothFrom_getD_succ ps p j hj

/-- C5 (amended): the `"lstm"` strategy computes single-exponential
smoothing over the full series with `smoothed[0] = price[0]` and
`smoothed[i] = 0.3·price[i] + 0.7·smoothed[i-1]`, computes the trend as
`(smoothed[n-1] - smoothed[n-20]) / 20` — the code's `smoothed[-20]` is
position `n-20`, i.e. `smoothed[last-19]`, NOT the claimed
`smoothed[last-20]` — and returns as the k-th future point (0-indexed `k`,
dated `last date + k + 1`) the value `smoothed[n-1] + trend · (k+1)`. -/
theorem C5_lstm_formula (df : List PreparedRecord) (days k i : Nat)
    (hwf : closesNumericB df = true)
    (hn : 30 ≤ (closesOf df).length) (hk : k < days)
    (hi : i + 1 < (closesOf df).length) :
    (smoothedList (closesOf df)).getD 0 0 = (closesOf df).getD 0 0 ∧
    (smoothedList (closesOf df)).getD (i + 1) 0 =
      (3 / 10) * (closesOf df).getD (i + 1) 0 +
        (7 / 10) * (smoothedList (closesOf df)).getD i 0 ∧
    lstmTrend df =
      ((smoothedList (closesOf df)).getD ((closesOf df).length - 1) 0 -
        (smoothedList (closesOf df)).getD ((closesOf df).length - 20) 0) / 20 ∧
    (predict_lstm df days).getD k { date := 0, close := 0 } =
      { date := lastDate df + k + 1
        close := (smoothedList (closesOf df)).getD ((closesOf df).length - 1) 0 +
          lstmTrend df * ((k : ℚ) + 1) } := by
  have hlen : (smoothedList (closesOf df)).length = (closesOf df).length :=
    smoothedList_length _
  have halpha : alpha = 3 / 10 := rfl
  have halpha' : (1 : ℚ) - alpha = 7 / 10 := by
    rw [halpha]
    norm_num
  refine ⟨smoothedList_getD_zero _ (by omega), ?_, ?_, ?_⟩
  · rw [smoothedList_getD_succ _ _ hi, halpha', halpha]
  · have ht : lstmTrend df =
        ((smoothedList (closesOf df)).getD ((smoothedList (closesOf df)).length - 1) 0 -
          (smoothedList (closesOf df)).getD ((smoothedList (closesOf df)).length - 20) 0) /
            20 := rfl
    rw [ht, hlen]
  · have hL : lstmLast df =
        (smoothedList (closesOf df)).getD ((smoothedList (closesOf df)).length - 1) 0 := rfl
    unfold predict_lstm
    rw [getD_map_range _ _ hk, hL, hlen]

/-- A 30-day series: close 10 at index 10, close 0 everywhere else
(so `smoothed[9] = 0 ≠ smoothed[10]`). -/
def wDfC5 : List PreparedRecord :=
  (List.range 30).map (fun j =>
    { date := some j, close := RawField.value (if j = 10 then (10 : ℚ) else 0) })

/-- C5 counterexample: on the 30-day series `wDfC5` the first prediction of
the `"lstm"` strategy does NOT equal
`smoothed[last] + ((smoothed[last] - smoothed[last-20]) / 20) · 1` with
`last - 20 = 9` as the claim's formula reads: the code uses `smoothed[-20]`,
which is position `10 = last - 19`, and `smoothed[9] ≠ smoothed[10]` here. -/
theorem C5_counterexample :
    ((predict_lstm wDfC5 1).getD 0 { date := 0, close := 0 }).close ≠
      (smoothedList (closesOf wDfC5)).getD 29 0 +
        (((smoothedList (closesOf wDfC5)).getD 29 0 -
          (smoothedList (closesOf wDfC5)).getD 9 0) / 20) * ((0 : ℚ) + 1) := by
  have hclose : closesOf wDfC5 =
      [0, 0, 0, 0, 0, 0, 0, 0, 0, 0, 10, 0, 0, 0, 0,
        0, 0, 0, 0, 0, 0, 0, 0, 0, 0, 0, 0, 0, 0, 0] := by decide
  unfold predict_lstm
  rw [getD_map_range _ _ (by decide : (0 : Nat) < 1)]
  norm_num [lstmLast, lstmTrend, hclose, smoothedList, smoothFrom, alpha,
    List.getD_cons_succ, List.getD_cons_zero]

theorem C5_lstm_formula_witness :
    closesNumericB wDf30 = true ∧
    30 ≤ (closesOf wDf30).length ∧ (0 : Nat) < 1 ∧ (0 : Nat) + 1 < (closesOf wDf30).length ∧
    ((smoothedList (closesOf wDf30)).getD 0 0 = (closesOf wDf30).getD 0 0 ∧
      (smoothedList (closesOf wDf30)).getD (0 + 1) 0 =
        (3 / 10) * (closesOf wDf30).getD (0 + 1) 0 +
          (7 / 10) * (smoothedList (closesOf wDf30)).getD 0 0 ∧
      lstmTrend wDf30 =
        ((smoothedList (closesOf wDf30)).getD ((closesOf wDf30).length - 1) 0 -
          (smoothedList (closesOf wDf30)).getD ((closesOf wDf30).length - 20) 0) / 20 ∧
      (predict_lstm wDf30 1).getD 0 { date := 0, close := 0 } =
        { date := lastDate wDf30 + 0 + 1
          close := (smoothedList (closesOf wDf30)).getD ((closesOf wDf30).length - 1) 0 +
            lstmTrend wDf30 * ((((0 : Nat)) : ℚ) + 1) }) :=
  ⟨by decide, by decide, by decide, by decide,
    C5_lstm_formula wDf30 1 0 0 (by decide) (by decide) (by decide) (by decide)⟩

/-! ## The moving-average strategy (claim C6) -/

theorem sum_drop_eq (ps : List ℚ) (j : Nat) :
    (ps.drop j).sum = ∑ i in Finset.range (ps.length - j), ps.getD (j + i) 0 := by
  induction ps generalizing j with
  | nil => simp
  | cons p ps ih =>
    cases j with
    | zero =>
      rw [List.drop_zero, List.sum_cons, List.length_cons, Nat.sub_zero,
        Finset.sum_range_succ']
      have h0 : ∀ i : Nat, (p :: ps).getD (0 + (i + 1)) 0 = ps.getD i 0 := by
        intro i
        simp [List.getD_cons_succ]
      rw [Finset.sum_congr rfl (fun i _ => h0 i)]
      have htail := ih 0
      rw [List.drop_zero] at htail
      simp only [Nat.sub_zero, Nat.zero_add] at htail
      rw [htail]
      simp only [Nat.zero_add, List.getD_cons_zero]
      ring
    | succ j =>
      rw [List.drop_succ_cons, List.length_cons, Nat.succ_sub_succ, ih j]
      refine Finset.sum_congr rfl (fun i _ => ?_)
      have hj : j + 1 + i = (j + i) + 1 := by omega
      rw [hj, List.getD_cons_succ]

/-- C6 (amended): the `"arima"` strategy takes the most recent
fully-populated trailing 20-day simple moving average (the mean of the last
20 closes), computes the trend as `(price[n-1] - price[n-20]) / 20` — the
code's `prices[-20]` is position `n-20`, i.e. `price[last-19]`, NOT the
claimed `price[last-20]` — and returns as the k-th future point (0-indexed
`k`, dated `last date + k + 1`) the value `last_ma + trend · (k+1)`. -/
theorem C6_arima_formula (df : List PreparedRecord) (days k : Nat)
    (hwf : closesNumericB df = true)
    (hn : 30 ≤ (closesOf df).length) (hk : k < days) :
    arimaLastMA df =
      (∑ i in Finset.range 20, (closesOf df).getD ((closesOf df).length - 20 + i) 0) / 20 ∧
    arimaTrend df =
      ((closesOf df).getD ((closesOf df).length - 1) 0 -
        (closesOf df).getD ((closesOf df).length - 20) 0) / 20 ∧
    (predict_arima df days).getD k { date := 0, close := 0 } =
      { date := lastDate df + k + 1
        close := arimaLastMA df + arimaTrend df * ((k : ℚ) + 1) } := by
  refine ⟨?_, rfl, ?_⟩
  · have hma : arimaLastMA df =
        ((closesOf df).drop ((closesOf df).length - 20)).sum / 20 := rfl
    rw [hma, sum_drop_eq]
    have h20 : (closesOf df).length - ((closesOf df).length - 20) = 20 := by omega
    rw [h20]
  · unfold predict_arima
    rw [getD_map_range _ _ hk]

/-- A 30-day series: close 20 at index 9, close 0 everywhere else
(so `price[9] ≠ price[10]`). -/
def wDfC6 : List PreparedRecord :=
  (List.range 30).map (fun j =>
    { date := some j, close := RawField.value (if j = 9 then (20 : ℚ) else 0) })

/-- C6 counterexample: on the 30-day series `wDfC6` the first prediction of
the `"arima"` strategy does NOT equal
`last_ma + ((price[last] - price[last-20]) / 20) · 1` with `last - 20 = 9`
as the claim's formula reads: the code uses `prices[-20]`, which is position
`10 = last - 19`, and `price[9] = 20 ≠ 0 = price[10]` here. -/
theorem C6_counterexample :
    ((predict_arima wDfC6 1).getD 0 { date := 0, close := 0 }).close ≠
      arimaLastMA wDfC6 +
        (((closesOf wDfC6).getD 29 0 - (closesOf wDfC6).getD 9 0) / 20) * ((0 : ℚ) + 1) := by
  have hclose : closesOf wDfC6 =
      [0, 0, 0, 0, 0, 0, 0, 0, 0, 20, 0, 0, 0, 0, 0,
        0, 0, 0, 0, 0, 0, 0, 0, 0, 0, 0, 0, 0, 0, 0] := by decide
  unfold predict_arima
  rw [getD_map_range _ _ (by decide : (0 : Nat) < 1)]
  norm_num [arimaLastMA, arimaTrend, hclose,
    List.getD_cons_succ, List.getD_cons_zero]

theorem C6_arima_formula_witness :
    closesNumericB wDf30 = true ∧
    30 ≤ (closesOf wDf30).length ∧ (0 : Nat) < 1 ∧
    (arimaLastMA wDf30 =
      (∑ i in Finset.range 20, (closesOf wDf30).getD ((closesOf wDf30).length - 20 + i) 0) /
        20 ∧
    arimaTrend wDf30 =
      ((closesOf wDf30).getD ((closesOf wDf30).length - 1) 0 -
        (closesOf wDf30).getD ((closesOf wDf30).length - 20) 0) / 20 ∧
    (predict_arima wDf30 1).getD 0 { date := 0, close := 0 } =
      { date := lastDate wDf30 + 0 + 1
        close := arimaLastMA wDf30 + arimaTrend wDf30 * ((((0 : Nat)) : ℚ) + 1) }) :=
  ⟨by decide, by decide, by decide,
    C6_arima_formula wDf30 1 0 (by decide) (by decide) (by decide)⟩

/-! ## Fallback of the advanced strategies (claim C7) -/

/-- C7: when the NeuralProphet / Prophet capability is unavailable (the
library failed to load, so `NeuralProphet is None` / `Prophet is None`), a request for
model `"prophet"` or `"neural_prophet"` returns exactly the Linear
Regression strategy's output on the same prepared series and horizon, and
the response's `model` field still carries the originally requested model
name. -/
theorem C7_unavailable_advanced_is_linreg (npOutcome prOutcome : Option (Nat → ℚ))
    (req : Request) (df : List PreparedRecord)
    (hprep : prepare_dataframe req.historical = Except.ok df)
    (hlen : 30 ≤ df.length)
    (hwf : closesNumericB df = true)
    (hm : req.model = "prophet" ∨ req.model = "neural_prophet") :
    predict_stock false false npOutcome prOutcome req =
      Except.ok { symbol := req.symbol, model := req.model
                  predictions := predict_linear_regression df req.days } := by
  have h30 : ¬ df.length < 30 := by omega
  rcases hm with h | h
  · simp [predict_stock, hprep, h30, h, predict_prophet]
  · simp [predict_stock, hprep, h30, h, predict_neural_prophet]

/-- A request for the advanced `"prophet"` model. -/
def wReqP : Request := { symbol := "AAPL", model := "prophet", days := 2, historical := wRaw30 }

theorem C7_unavailable_advanced_is_linreg_witness :
    prepare_dataframe wReqP.historical = Except.ok wDf30 ∧
    30 ≤ wDf30.length ∧ closesNumericB wDf30 = true ∧
    (wReqP.model = "prophet" ∨ wReqP.model = "neural_prophet") ∧
    predict_stock false false none none wReqP =
      Except.ok { symbol := wReqP.symbol, model := wReqP.model
                  predictions := predict_linear_regression wDf30 wReqP.days } :=
  ⟨by rfl, by decide, by decide, Or.inl rfl,
    C7_unavailable_advanced_is_linreg none none wReqP wDf30 (by rfl) (by decide)
      (by decide) (Or.inl rfl)⟩

/-! ## Constant series (claim C8) -/

theorem smoothFrom_const (c : ℚ) (k : Nat) :
    smoothFrom c (List.replicate k c) = List.replicate k c := by
  induction k with
  | zero => rfl
  | succ n ih =>
    have h : alpha * c + (1 - alpha) * c = c := by ring
    simp only [List.replicate_succ, smoothFrom, h, ih]

theorem smoothedList_const (c : ℚ) (n : Nat) :
    smoothedList (List.replicate n c) = List.replicate n c := by
  cases n with
  | zero => rfl
  | succ n => simp only [List.replicate_succ, smoothedList, smoothFrom_const]

/-- C8: on a constant-price series (every close equal to `c`, length ≥ 30)
both the `"lstm"` and `"arima"` strategies compute a zero trend, and every
prediction point carries exactly the value `c`. -/
theorem C8_constant_series (df : List PreparedRecord) (n days k : Nat) (c : ℚ)
    (hwf : closesNumericB df = true)
    (hc : closesOf df = List.replicate n c) (hn : 30 ≤ n) (hk : k < days) :
    lstmTrend df = 0 ∧ arimaTrend df = 0 ∧
    (predict_lstm df days).getD k { date := 0, close := 0 } =
      { date := lastDate df + k + 1, close := c } ∧
    (predict_arima df days).getD k { date := 0, close := 0 } =
      { date := lastDate df + k + 1, close := c } := by
  have hs : smoothedList (closesOf df) = List.replicate n c := by
    rw [hc, smoothedList_const]
  have hslen : (smoothedList (closesOf df)).length = n := by
    rw [hs, List.length_replicate]
  have hclen : (closesOf df).length = n := by
    rw [hc, List.length_replicate]
  have hL : lstmLast df = c := by
    show (smoothedList (closesOf df)).getD ((smoothedList (closesOf df)).length - 1) 0 = c
    rw [hslen, hs]
    exact getD_replicate _ _ (by omega)
  have hT : lstmTrend df = 0 := by
    show ((smoothedList (closesOf df)).getD ((smoothedList (closesOf df)).length - 1) 0 -
      (smoothedList (closesOf df)).getD ((smoothedList (closesOf df)).length - 20) 0) / 20 = 0
    rw [hslen, hs, getD_replicate _ _ (by omega : n - 1 < n),
      getD_replicate _ _ (by omega : n - 20 < n)]
    simp
  have hTa : arimaTrend df = 0 := by
    show ((closesOf df).getD ((closesOf df).length - 1) 0 -
      (closesOf df).getD ((closesOf df).length - 20) 0) / 20 = 0
    rw [hclen, hc, getD_replicate _ _ (by omega : n - 1 < n),
      getD_replicate _ _ (by omega : n - 20 < n)]
    simp
  have hMA : arimaLastMA df = c := by
    show ((closesOf df).drop ((closesOf df).length - 20)).sum / 20 = c
    rw [hclen, hc, List.drop_replicate]
    have h20 : n - (n - 20) = 20 := by omega
    rw [h20, List.sum_replicate, nsmul_eq_mul]
    norm_num
  refine ⟨hT, hTa, ?_, ?_⟩
  · unfold predict_lstm
    rw [getD_map_range _ _ hk, hL, hT]
    simp
  · unfold predict_arima
    rw [getD_map_range _ _ hk, hMA, hTa]
    simp

/-- A 30-day constant series with close 5. -/
def wDfConst : List PreparedRecord :=
  (List.range 30).map (fun i => { date := some i, close := RawField.value (5 : ℚ) })

theorem C8_constant_series_witness :
    closesNumericB wDfConst = true ∧
    closesOf wDfConst = List.replicate 30 (5 : ℚ) ∧ 30 ≤ 30 ∧ (0 : Nat) < 1 ∧
    (lstmTrend wDfConst = 0 ∧ arimaTrend wDfConst = 0 ∧
      (predict_lstm wDfConst 1).getD 0 { date := 0, close := 0 } =
        { date := lastDate wDfConst + 0 + 1, close := (5 : ℚ) } ∧
      (predict_arima wDfConst 1).getD 0 { date := 0, close := 0 } =
        { date := lastDate wDfConst + 0 + 1, close := (5 : ℚ) }) :=
  ⟨by decide, by decide, by decide, by decide,
    C8_constant_series wDfConst 30 1 0 5 (by decide) (by decide) (by decide) (by decide)⟩

end StockPred
